import Mathlib

/-!
Shallow embedding of the adaptive multi-agent coordination runtime
(ATSLP scheduler, HCMPL hierarchical cache, CALK collaborative learning)
of this repository, together with theorems settling the specification
claims against the embedded code.

The embedded definitions follow the repository sources:
the ATSLP scheduler is `src/unnamed/part_017` (a Coq development),
the CALK engine is `src/submission_package/calk_coq.v`,
and the hierarchical cache is `src/formal_verification/hcmpl_isabelle.thy`.
The sources use propositional predicates (Coq `In`, `~`, `/\`) inside
boolean filters; they are embedded here with the corresponding decidable
tests, which is the only reading under which the sources typecheck.
-/

namespace ATSLP

/-- Agent record, from `src/unnamed/part_017` (`Record Agent`). -/
structure Agent where
  agent_id : Nat
  capabilities : List Nat
  current_load : Nat
  max_capacity : Nat
  performance_history : List Nat
deriving DecidableEq

/-- Task record, from `src/unnamed/part_017` (`Record Task`). -/
structure Task where
  task_id : Nat
  complexity : Nat
  required_capabilities : List Nat
  estimated_duration : Nat
  priority : Nat
  deadline : Option Nat
deriving DecidableEq

/-- Task result record, from `src/unnamed/part_017` (`Record TaskResult`). -/
structure TaskResult where
  result_task_id : Nat
  result_agent_id : Nat
  execution_time : Nat
  success : Bool
deriving DecidableEq

/-- Node selection score, from `src/unnamed/part_017` (`calculate_score`):
`current_load + (|required| - |required ∩ capabilities|) + head of history (1 if empty)`. -/
def calculate_score (agent : Agent) (task : Task) : Nat :=
  let load_factor := agent.current_load
  let capability_match :=
    (task.required_capabilities.filter (fun cap => decide (cap ∈ agent.capabilities))).length
  let performance_factor :=
    match agent.performance_history with
    | [] => 1
    | h :: _ => h
  load_factor + (task.required_capabilities.length - capability_match) + performance_factor

/-- The capable-agent filter used by `select_best_agent` in `src/unnamed/part_017`:
`existsb (fun cap => In cap agent.capabilities) task.required_capabilities`. -/
def is_capable (agent : Agent) (task : Task) : Bool :=
  task.required_capabilities.any (fun cap => decide (cap ∈ agent.capabilities))

/-- Best-agent selection, from `src/unnamed/part_017` (`select_best_agent`):
filter the capable agents, then fold keeping the strictly smaller score. -/
def select_best_agent (agents : List Agent) (task : Task) : Option Agent :=
  let capable_agents := agents.filter (fun agent => is_capable agent task)
  match capable_agents with
  | [] => none
  | h :: t =>
    some (t.foldl (fun best current =>
      if calculate_score current task < calculate_score best task then current else best) h)

/-- Load update after assignment, from `src/unnamed/part_017` (`update_agent_load`). -/
def update_agent_load (agent : Agent) (task : Task) : Agent :=
  { agent_id := agent.agent_id
    capabilities := agent.capabilities
    current_load := agent.current_load + task.estimated_duration
    max_capacity := agent.max_capacity
    performance_history := agent.performance_history }

/-- The ATSLP scheduling function, from `src/unnamed/part_017` (`atslp_schedule`). -/
def atslp_schedule (agents : List Agent) (task : Task) : Option (Agent × TaskResult) :=
  match select_best_agent agents task with
  | none => none
  | some selected_agent =>
    let updated_agent := update_agent_load selected_agent task
    let result : TaskResult :=
      { result_task_id := task.task_id
        result_agent_id := selected_agent.agent_id
        execution_time := task.estimated_duration
        success := true }
    some (updated_agent, result)

/-- Replace a task's deadline, leaving every other field unchanged. -/
def set_deadline (task : Task) (d : Option Nat) : Task :=
  { task with deadline := d }

/-- Two agents identical in every field except `agent_id` (ids 5 and 3),
used to exercise tie-breaking in `select_best_agent`. -/
def tieHigh : Agent :=
  { agent_id := 5, capabilities := [1], current_load := 0, max_capacity := 10
    performance_history := [1] }

/-- Companion of `tieHigh` with the lower id 3. -/
def tieLow : Agent :=
  { agent_id := 3, capabilities := [1], current_load := 0, max_capacity := 10
    performance_history := [1] }

/-- A task requiring capability 1, used with `tieHigh` and `tieLow`. -/
def tieTask : Task :=
  { task_id := 0, complexity := 0, required_capabilities := [1]
    estimated_duration := 1, priority := 0, deadline := none }

/-- An agent already at full capacity (load 10 of 10). -/
def overAgent : Agent :=
  { agent_id := 0, capabilities := [1], current_load := 10, max_capacity := 10
    performance_history := [] }

/-- A task of duration 5 requiring capability 1, assigned to `overAgent`. -/
def overTask : Task :=
  { task_id := 1, complexity := 0, required_capabilities := [1]
    estimated_duration := 5, priority := 0, deadline := none }

/-- An agent holding only capability 1. -/
def capAgent : Agent :=
  { agent_id := 0, capabilities := [1], current_load := 0, max_capacity := 10
    performance_history := [] }

/-- A task requiring capabilities 1 and 2 (a strict superset of `capAgent`'s set). -/
def supTask : Task :=
  { task_id := 7, complexity := 0, required_capabilities := [1, 2]
    estimated_duration := 3, priority := 0, deadline := none }

/-- A capable agent with load 2, used for the past-deadline scenario. -/
def dlAgent : Agent :=
  { agent_id := 3, capabilities := [1], current_load := 2, max_capacity := 10
    performance_history := [] }

/-- A task whose deadline 0 already lies in the past. -/
def pastTask : Task :=
  { task_id := 2, complexity := 0, required_capabilities := [1]
    estimated_duration := 4, priority := 0, deadline := some 0 }

/-- Scenario agent A with capabilities {0, 1}. -/
def scnAgentA : Agent :=
  { agent_id := 10, capabilities := [0, 1], current_load := 0, max_capacity := 10
    performance_history := [] }

/-- Scenario agent B with capabilities {1, 2}. -/
def scnAgentB : Agent :=
  { agent_id := 11, capabilities := [1, 2], current_load := 0, max_capacity := 10
    performance_history := [] }

/-- Scenario agent C with capabilities {2} only. -/
def scnAgentC : Agent :=
  { agent_id := 12, capabilities := [2], current_load := 0, max_capacity := 10
    performance_history := [] }

/-- Scenario task requiring capability 1. -/
def scnTask : Task :=
  { task_id := 9, complexity := 0, required_capabilities := [1]
    estimated_duration := 2, priority := 0, deadline := none }

end ATSLP

namespace CALK

/-- Learning agent record, from `src/submission_package/calk_coq.v`
(`Record LearningAgent`). -/
structure LearningAgent where
  agent_id : Nat
  capabilities : List Nat
  knowledge_base : Nat → Nat
  performance_history : List Nat
  specialization_scores : Nat → Nat

/-- Pairwise similarity, from `src/submission_package/calk_coq.v`
(`compute_similarity`): Jaccard-style percentage over capability lists. -/
def compute_similarity (agent1 agent2 : LearningAgent) : Nat :=
  let caps1 := agent1.capabilities
  let caps2 := agent2.capabilities
  let intersection := caps1.filter (fun cap => decide (cap ∈ caps2))
  let union := caps1 ++ caps2.filter (fun cap => decide (cap ∉ caps1))
  match union.length with
  | 0 => 0
  | n => intersection.length * 100 / n

/-- Peer filter, from `src/submission_package/calk_coq.v` (`get_similar_agents`). -/
def get_similar_agents (agent : LearningAgent) (agents : List LearningAgent)
    (threshold : Nat) : List LearningAgent :=
  agents.filter (fun other_agent =>
    decide (agent.agent_id ≠ other_agent.agent_id ∧
      compute_similarity agent other_agent ≥ threshold))

/-- Knowledge transfer, from `src/submission_package/calk_coq.v`
(`transfer_knowledge`): moves the target's value at `key` toward the source's. -/
def transfer_knowledge (source target : LearningAgent) (key learning_rate : Nat) :
    LearningAgent :=
  let source_value := source.knowledge_base key
  let target_value := target.knowledge_base key
  let new_value := (target_value * (100 - learning_rate) + source_value * learning_rate) / 100
  { agent_id := target.agent_id
    capabilities := target.capabilities
    knowledge_base := fun k => if k = key then new_value else target.knowledge_base k
    performance_history := target.performance_history
    specialization_scores := target.specialization_scores }

/-- Local knowledge update, from `src/submission_package/calk_coq.v`
(`update_knowledge`): convex interpolation of the old value toward the reward. -/
def update_knowledge (agent : LearningAgent) (key reward learning_rate : Nat) :
    LearningAgent :=
  let current_value := agent.knowledge_base key
  let new_value := (current_value * (100 - learning_rate) + reward * learning_rate) / 100
  { agent_id := agent.agent_id
    capabilities := agent.capabilities
    knowledge_base := fun k => if k = key then new_value else agent.knowledge_base k
    performance_history := agent.performance_history
    specialization_scores := agent.specialization_scores }

/-- Collaborative learning update, from `src/submission_package/calk_coq.v`
(`collaborative_learning_update`): local update, then a left fold over the
similar peers whose accumulator starts at — and keeps receiving transfers
from — the updated source agent itself. -/
def collaborative_learning_update (agent : LearningAgent) (agents : List LearningAgent)
    (key reward learning_rate transfer_rate similarity_threshold : Nat) : LearningAgent :=
  let updated_agent := update_knowledge agent key reward learning_rate
  let similar_agents := get_similar_agents updated_agent agents similarity_threshold
  similar_agents.foldl (fun current_agent similar_agent =>
    let similarity := compute_similarity updated_agent similar_agent
    let effective_transfer_rate := transfer_rate * similarity / 100
    transfer_knowledge updated_agent current_agent key effective_transfer_rate)
    updated_agent

/-- Modelled from the spec: the propagation step of
`propagate(agent, peers, key, reward, lr, transfer_rate, threshold)` described
in the specification (after the local update, every peer whose similarity to
the source is at least the threshold has its knowledge at the key interpolated
toward the just-updated source value with
`effective_rate = transfer_rate·similarity/100`; other peers are unchanged).
The repository's `collaborative_learning_update` returns a single agent and
has no such peer-updating output; this definition states the specified
behaviour for comparison. -/
def propagate_spec (agent : LearningAgent) (peers : List LearningAgent)
    (key reward learning_rate transfer_rate threshold : Nat) :
    LearningAgent × List LearningAgent :=
  let updated := update_knowledge agent key reward learning_rate
  (updated, peers.map (fun peer =>
    let s := compute_similarity updated peer
    if threshold ≤ s then transfer_knowledge updated peer key (transfer_rate * s / 100)
    else peer))

/-- A learning agent with id 0, capability {1} and all-zero knowledge. -/
def calkSrc : LearningAgent :=
  { agent_id := 0, capabilities := [1], knowledge_base := fun _ => 0
    performance_history := [], specialization_scores := fun _ => 0 }

/-- A peer with id 1 and the same capability set as `calkSrc` (similarity 100). -/
def calkPeer : LearningAgent :=
  { agent_id := 1, capabilities := [1], knowledge_base := fun _ => 0
    performance_history := [], specialization_scores := fun _ => 0 }

/-- An agent whose capability list `[1, 1, 2]` contains a duplicate. -/
def simDupA : LearningAgent :=
  { agent_id := 0, capabilities := [1, 1, 2], knowledge_base := fun _ => 0
    performance_history := [], specialization_scores := fun _ => 0 }

/-- An agent with duplicate-free capability list `[1, 3]`. -/
def simDupB : LearningAgent :=
  { agent_id := 1, capabilities := [1, 3], knowledge_base := fun _ => 0
    performance_history := [], specialization_scores := fun _ => 0 }

/-- An agent with duplicate-free capability list `[1, 2]`. -/
def nodupA : LearningAgent :=
  { agent_id := 0, capabilities := [1, 2], knowledge_base := fun _ => 0
    performance_history := [], specialization_scores := fun _ => 0 }

/-- An agent with duplicate-free capability list `[2, 3]`. -/
def nodupB : LearningAgent :=
  { agent_id := 1, capabilities := [2, 3], knowledge_base := fun _ => 0
    performance_history := [], specialization_scores := fun _ => 0 }

end CALK

namespace HCMPL

/-- Cache item record, from `src/formal_verification/hcmpl_isabelle.thy`
(`record CacheItem`). -/
structure CacheItem where
  key : Nat
  value : Nat
  access_count : Nat
  last_access : Nat
  pattern_score : Nat
deriving DecidableEq

/-- Hierarchical cache: a level-indexed family of key-to-item maps, from
`src/formal_verification/hcmpl_isabelle.thy` (`HierarchicalCache`). -/
def HierarchicalCache : Type := Nat → Nat → Option CacheItem

/-- Level assignment, from `src/formal_verification/hcmpl_isabelle.thy`
(`get_cache_level`): a function of the key alone; the three context
arguments are ignored by the body. -/
def get_cache_level (key agent_id task_complexity time_of_day : Nat) : Nat :=
  if key % 3 = 0 then 2 else if key % 2 = 0 then 1 else 0

/-- Cache lookup, from `src/formal_verification/hcmpl_isabelle.thy`
(`cache_get`). The source declares the return type `CacheValue option`,
so the stored item's `value` field is projected out. -/
def cache_get (cache : HierarchicalCache) (key agent_id task_complexity time_of_day : Nat) :
    Option Nat :=
  let level := get_cache_level key agent_id task_complexity time_of_day
  (cache level key).map (fun item => item.value)

/-- Cache write, from `src/formal_verification/hcmpl_isabelle.thy` (`cache_put`). -/
def cache_put (cache : HierarchicalCache) (key value agent_id task_complexity time_of_day : Nat) :
    HierarchicalCache :=
  let level := get_cache_level key agent_id task_complexity time_of_day
  fun l =>
    if l = level then
      fun k =>
        if k = key then
          some { key := key, value := value, access_count := 1
                 last_access := time_of_day, pattern_score := 0 }
        else cache l k
    else cache l

/-- Cache invalidation, from `src/formal_verification/hcmpl_isabelle.thy`
(`cache_invalidate`): removes the key from every level. -/
def cache_invalidate (cache : HierarchicalCache) (key : Nat) : HierarchicalCache :=
  fun level => fun k => if k = key then none else cache level k

/-- The everywhere-empty hierarchical cache. -/
def emptyCache : HierarchicalCache := fun _ _ => none

end HCMPL

namespace ATSLP

theorem foldl_best_mem (task : Task) (h : Agent) (t : List Agent) :
    t.foldl (fun best current =>
      if calculate_score current task < calculate_score best task then current else best) h
      ∈ h :: t := by
  induction t generalizing h with
  | nil => simp
  | cons c t ih =>
    simp only [List.foldl_cons]
    rcases List.mem_cons.mp
        (ih (if calculate_score c task < calculate_score h task then c else h)) with h1 | h2
    · rw [h1]
      by_cases hc : calculate_score c task < calculate_score h task
      · simp [hc]
      · simp [hc]
    · exact List.mem_cons_of_mem _ (List.mem_cons_of_mem _ h2)

theorem foldl_best_le (task : Task) (h : Agent) (t : List Agent) :
    ∀ x ∈ h :: t,
      calculate_score (t.foldl (fun best current =>
        if calculate_score current task < calculate_score best task then current else best) h)
        task ≤ calculate_score x task := by
  induction t generalizing h with
  | nil =>
    intro x hx
    rcases List.mem_cons.mp hx with h1 | h2
    · rw [h1]
      exact Nat.le_refl _
    · simp at h2
  | cons c t ih =>
    have hkey : calculate_score
        (if calculate_score c task < calculate_score h task then c else h) task
          ≤ calculate_score h task ∧
        calculate_score
        (if calculate_score c task < calculate_score h task then c else h) task
          ≤ calculate_score c task := by
      by_cases hc : calculate_score c task < calculate_score h task
      · simp only [hc, if_pos]
        exact ⟨Nat.le_of_lt hc, Nat.le_refl _⟩
      · simp only [hc, if_neg, Bool.false_eq_true, not_false_eq_true]
        exact ⟨Nat.le_refl _, Nat.le_of_not_lt hc⟩
    have hhead := ih (if calculate_score c task < calculate_score h task then c else h)
      (if calculate_score c task < calculate_score h task then c else h) (List.mem_cons_self _ _)
    intro x hx
    simp only [List.foldl_cons]
    rcases List.mem_cons.mp hx with h1 | h2
    · rw [h1]
      exact Nat.le_trans hhead hkey.1
    · rcases List.mem_cons.mp h2 with h3 | h4
      · rw [h3]
        exact Nat.le_trans hhead hkey.2
      · exact ih _ x (List.mem_cons_of_mem _ h4)

theorem select_best_agent_spec (agents : List Agent) (task : Task) (a : Agent)
    (h : select_best_agent agents task = some a) :
    a ∈ agents ∧ is_capable a task = true ∧
      ∀ b ∈ agents, is_capable b task = true →
        calculate_score a task ≤ calculate_score b task := by
  unfold select_best_agent at h
  rcases hC : agents.filter (fun agent => is_capable agent task) with _ | ⟨hd, tl⟩
  · rw [hC] at h
    simp at h
  · rw [hC] at h
    simp only [Option.some.injEq] at h
    subst h
    have hmem := foldl_best_mem task hd tl
    rw [← hC] at hmem
    have hmem2 := List.mem_filter.mp hmem
    refine ⟨hmem2.1, hmem2.2, ?_⟩
    intro b hb hcap
    have hbf : b ∈ agents.filter (fun agent => is_capable agent task) :=
      List.mem_filter.mpr ⟨hb, hcap⟩
    rw [hC] at hbf
    exact foldl_best_le task hd tl b hbf

theorem atslp_schedule_elim (agents : List Agent) (task : Task) (a2 : Agent)
    (res : TaskResult) (h : atslp_schedule agents task = some (a2, res)) :
    ∃ a, select_best_agent agents task = some a ∧ a2 = update_agent_load a task ∧
      res = { result_task_id := task.task_id, result_agent_id := a.agent_id
              execution_time := task.estimated_duration, success := true } := by
  unfold atslp_schedule at h
  rcases hS : select_best_agent agents task with _ | sel
  · rw [hS] at h
    simp at h
  · rw [hS] at h
    simp only [Option.some.injEq, Prod.mk.injEq] at h
    exact ⟨sel, rfl, h.1.symm, h.2.symm⟩

/-- Claim C1 (amended): whenever `atslp_schedule` returns an assignment, the
selected agent is drawn from the input list, intersects the task's required
capabilities, and minimises `calculate_score` (current load plus unmatched
required-capability count plus head of performance history) among all capable
agents; the returned agent is the selected one with its load increased and the
result carries the selected agent's id.  The code minimises this additive
score rather than maximising the specification's weighted score, and score
ties keep the agent encountered first in list order. -/
theorem atslp_assigns_min_score_capable (agents : List Agent) (task : Task)
    (a2 : Agent) (res : TaskResult)
    (h : atslp_schedule agents task = some (a2, res)) :
    ∃ a, a ∈ agents ∧ is_capable a task = true ∧
      (∀ b ∈ agents, is_capable b task = true →
        calculate_score a task ≤ calculate_score b task) ∧
      a2 = update_agent_load a task ∧ res.result_agent_id = a.agent_id := by
  obtain ⟨a, hS, ha2, hres⟩ := atslp_schedule_elim agents task a2 res h
  obtain ⟨h1, h2, h3⟩ := select_best_agent_spec agents task a hS
  exact ⟨a, h1, h2, h3, ha2, by rw [hres]⟩

/-- Claim C1 witness: the amended theorem applied to the concrete two-agent
tie instance. -/
theorem atslp_assigns_min_score_capable_witness :
    ∃ a, a ∈ [tieHigh, tieLow] ∧ is_capable a tieTask = true ∧
      (∀ b ∈ [tieHigh, tieLow], is_capable b tieTask = true →
        calculate_score a tieTask ≤ calculate_score b tieTask) ∧
      update_agent_load tieHigh tieTask = update_agent_load a tieTask ∧
      (TaskResult.mk 0 5 1 true).result_agent_id = a.agent_id :=
  atslp_assigns_min_score_capable [tieHigh, tieLow] tieTask
    (update_agent_load tieHigh tieTask) (TaskResult.mk 0 5 1 true) (by decide)

/-- Claim C1 counterexample: two agents identical in every field except their
ids (5 listed first, 3 second) tie on every quantity the specification's
score and tie-breaking depend on, yet the scheduler selects the agent with id
5 — not the lowest id 3 — because the fold keeps the earlier agent on ties. -/
theorem atslp_tiebreak_not_lowest_id :
    select_best_agent [tieHigh, tieLow] tieTask = some tieHigh ∧
    tieHigh.agent_id = 5 ∧ tieLow.agent_id = 3 ∧
    calculate_score tieHigh tieTask = calculate_score tieLow tieTask ∧
    tieHigh.current_load = tieLow.current_load ∧
    tieHigh.capabilities = tieLow.capabilities ∧
    tieHigh.max_capacity = tieLow.max_capacity ∧
    tieHigh.performance_history = tieLow.performance_history ∧
    (atslp_schedule [tieHigh, tieLow] tieTask).map (fun p => p.2.result_agent_id) = some 5 := by
  decide

/-- Claim C2 (code bug): the scheduler reserves the task duration with no
capacity check.  For an agent already at its maximum capacity (load 10 of 10),
scheduling a duration-5 task yields an assigned agent whose load 15 exceeds
its capacity 10, violating the load invariant the code's own
`no_agent_overload` statement asserts. -/
theorem atslp_overload_eval :
    atslp_schedule [overAgent] overTask =
      some ({ agent_id := 0, capabilities := [1], current_load := 15, max_capacity := 10
              performance_history := [] },
            { result_task_id := 1, result_agent_id := 0, execution_time := 5, success := true }) ∧
    overAgent.current_load = 10 ∧ overAgent.max_capacity = 10 ∧
    overAgent.current_load ≤ overAgent.max_capacity ∧ 15 > 10 := by
  decide

/-- Claim C3 (amended): whenever `atslp_schedule` returns an assignment, the
selected agent shares at least one capability with the task's required set
(nonempty intersection) — not necessarily all of them.  An agent whose
capability set is disjoint from the required set, such as scenario agent C,
is never selected. -/
theorem atslp_assigned_shares_capability (agents : List Agent) (task : Task)
    (a2 : Agent) (res : TaskResult)
    (h : atslp_schedule agents task = some (a2, res)) :
    ∃ a, a ∈ agents ∧ a2 = update_agent_load a task ∧ res.result_agent_id = a.agent_id ∧
      ∃ cap, cap ∈ task.required_capabilities ∧ cap ∈ a.capabilities := by
  obtain ⟨a, hS, ha2, hres⟩ := atslp_schedule_elim agents task a2 res h
  obtain ⟨h1, h2, _⟩ := select_best_agent_spec agents task a hS
  refine ⟨a, h1, ha2, by rw [hres], ?_⟩
  simpa [is_capable, List.any_eq_true] using h2

/-- Claim C3 witness: the amended theorem applied to the scenario with agents
A{0,1}, B{1,2}, C{2} and a task requiring capability 1; additionally agent C
(id 12) is not the assigned agent. -/
theorem atslp_assigned_shares_capability_witness :
    (∃ a, a ∈ [scnAgentA, scnAgentB, scnAgentC] ∧
      update_agent_load scnAgentA scnTask = update_agent_load a scnTask ∧
      (TaskResult.mk 9 10 2 true).result_agent_id = a.agent_id ∧
      ∃ cap, cap ∈ scnTask.required_capabilities ∧ cap ∈ a.capabilities) ∧
    (atslp_schedule [scnAgentA, scnAgentB, scnAgentC] scnTask).map
      (fun p => p.2.result_agent_id) ≠ some scnAgentC.agent_id :=
  ⟨atslp_assigned_shares_capability [scnAgentA, scnAgentB, scnAgentC] scnTask
      (update_agent_load scnAgentA scnTask) (TaskResult.mk 9 10 2 true) (by decide),
    by decide⟩

/-- Claim C3 counterexample: a task requiring capabilities {1, 2} is assigned
to an agent holding only capability 1, so the required set is not contained
in the assigned agent's capability set. -/
theorem atslp_not_superset_counterexample :
    (atslp_schedule [capAgent] supTask).map (fun p => p.2.result_agent_id) = some 0 ∧
    capAgent.agent_id = 0 ∧
    2 ∈ supTask.required_capabilities ∧ 2 ∉ capAgent.capabilities := by
  decide

/-- Claim C9 (amended): `atslp_schedule` never inspects the task's deadline:
its result is identical for any two deadline values, so a task whose deadline
already passed is scheduled exactly like one with no deadline, and no
`DeadlineExceeded` failure exists in the code. -/
theorem atslp_ignores_deadline (agents : List Agent) (task : Task) (d1 d2 : Option Nat) :
    atslp_schedule agents (set_deadline task d1) = atslp_schedule agents (set_deadline task d2) := by
  cases task
  rfl

/-- Claim C9 counterexample: a task whose deadline 0 already lies in the past
is assigned (success result, no failure), and the selected agent's load grows
from 2 to 6 — capacity is consumed despite the expired deadline. -/
theorem atslp_past_deadline_assigned :
    pastTask.deadline = some 0 ∧
    atslp_schedule [dlAgent] pastTask =
      some ({ agent_id := 3, capabilities := [1], current_load := 6, max_capacity := 10
              performance_history := [] },
            { result_task_id := 2, result_agent_id := 3, execution_time := 4, success := true }) ∧
    dlAgent.current_load = 2 := by
  decide

end ATSLP

namespace CALK

/-- Claim C4 (code bug): with a peer whose similarity to the source is 100
(well above the threshold 0), the collaborative update's output is a single
agent — the source, carrying only the local update value 50 at the key —
while the specified propagation would have moved the peer's knowledge at the
key from 0 to 50.  The fold inside `collaborative_learning_update` transfers
the updated source's value onto the accumulator, which is the updated source
itself, so no peer is ever modified. -/
theorem collaborative_update_no_peer_transfer :
    compute_similarity (update_knowledge calkSrc 0 100 50) calkPeer = 100 ∧
    (collaborative_learning_update calkSrc [calkPeer] 0 100 50 100 0).agent_id =
      calkSrc.agent_id ∧
    (collaborative_learning_update calkSrc [calkPeer] 0 100 50 100 0).knowledge_base 0 =
      (update_knowledge calkSrc 0 100 50).knowledge_base 0 ∧
    (update_knowledge calkSrc 0 100 50).knowledge_base 0 = 50 ∧
    (propagate_spec calkSrc [calkPeer] 0 100 50 100 0).2.map (fun p => p.knowledge_base 0) =
      [50] ∧
    calkPeer.knowledge_base 0 = 0 := by
  decide

/-- Claim C5: the local update writes the exact convex-interpolation value
`(old·(100-lr) + reward·lr)/100` at the key; for `lr ≤ 100` the new value
stays within the range spanned by the old value and the reward, hence its
distance to the reward never exceeds the old distance. -/
theorem update_knowledge_convex (agent : LearningAgent) (key reward lr : Nat)
    (h : lr ≤ 100) :
    (update_knowledge agent key reward lr).knowledge_base key =
      (agent.knowledge_base key * (100 - lr) + reward * lr) / 100 ∧
    min (agent.knowledge_base key) reward ≤
      (update_knowledge agent key reward lr).knowledge_base key ∧
    (update_knowledge agent key reward lr).knowledge_base key ≤
      max (agent.knowledge_base key) reward ∧
    Nat.dist ((update_knowledge agent key reward lr).knowledge_base key) reward ≤
      Nat.dist (agent.knowledge_base key) reward := by
  have hval : (update_knowledge agent key reward lr).knowledge_base key =
      (agent.knowledge_base key * (100 - lr) + reward * lr) / 100 := by
    simp [update_knowledge]
  set old := agent.knowledge_base key with hold
  have hsum : (100 - lr) + lr = 100 := by omega
  have hlow : min old reward ≤ (old * (100 - lr) + reward * lr) / 100 := by
    have h1 : min old reward * 100 ≤ old * (100 - lr) + reward * lr := by
      calc min old reward * 100
          = min old reward * (100 - lr) + min old reward * lr := by
            rw [← Nat.mul_add, hsum]
        _ ≤ old * (100 - lr) + reward * lr :=
            Nat.add_le_add (Nat.mul_le_mul_right _ (min_le_left _ _))
              (Nat.mul_le_mul_right _ (min_le_right _ _))
    have h2 := Nat.div_le_div_right (c := 100) h1
    rwa [Nat.mul_div_cancel _ (by norm_num : (0 : Nat) < 100)] at h2
  have hup : (old * (100 - lr) + reward * lr) / 100 ≤ max old reward := by
    have h1 : old * (100 - lr) + reward * lr ≤ max old reward * 100 := by
      calc old * (100 - lr) + reward * lr
          ≤ max old reward * (100 - lr) + max old reward * lr :=
            Nat.add_le_add (Nat.mul_le_mul_right _ (le_max_left _ _))
              (Nat.mul_le_mul_right _ (le_max_right _ _))
        _ = max old reward * 100 := by rw [← Nat.mul_add, hsum]
    have h2 := Nat.div_le_div_right (c := 100) h1
    rwa [Nat.mul_div_cancel _ (by norm_num : (0 : Nat) < 100)] at h2
  refine ⟨hval, ?_, ?_, ?_⟩
  · rw [hval]
    exact hlow
  · rw [hval]
    exact hup
  · rw [hval]
    unfold Nat.dist
    rcases Nat.le_total old reward with hc | hc
    · rw [min_eq_left hc] at hlow
      rw [max_eq_right hc] at hup
      omega
    · rw [min_eq_right hc] at hlow
      rw [max_eq_left hc] at hup
      omega

/-- Claim C5 witness: the theorem applied with `lr = 50`, old value 0 and
reward 100, together with the scenario value: the update yields exactly 50. -/
theorem update_knowledge_convex_witness :
    (50 : Nat) ≤ 100 ∧
    ((update_knowledge calkSrc 0 100 50).knowledge_base 0 =
        (calkSrc.knowledge_base 0 * (100 - 50) + 100 * 50) / 100 ∧
      min (calkSrc.knowledge_base 0) 100 ≤
        (update_knowledge calkSrc 0 100 50).knowledge_base 0 ∧
      (update_knowledge calkSrc 0 100 50).knowledge_base 0 ≤
        max (calkSrc.knowledge_base 0) 100 ∧
      Nat.dist ((update_knowledge calkSrc 0 100 50).knowledge_base 0) 100 ≤
        Nat.dist (calkSrc.knowledge_base 0) 100) ∧
    (update_knowledge calkSrc 0 100 50).knowledge_base 0 = 50 :=
  ⟨by norm_num, update_knowledge_convex calkSrc 0 100 50 (by norm_num), by decide⟩

theorem sim_match_collapse (m k : Nat) :
    (match m with | 0 => 0 | n => k * 100 / n) = k * 100 / m := by
  cases m with
  | zero => simp
  | succ n => rfl

theorem compute_similarity_eq (a1 a2 : LearningAgent) :
    compute_similarity a1 a2 =
      (a1.capabilities.filter (fun cap => decide (cap ∈ a2.capabilities))).length * 100 /
      (a1.capabilities ++
        a2.capabilities.filter (fun cap => decide (cap ∉ a1.capabilities))).length := by
  unfold compute_similarity
  exact sim_match_collapse _ _

theorem length_filter_mem_eq_card_inter (l1 l2 : List Nat) (h1 : l1.Nodup) :
    (l1.filter (fun cap => decide (cap ∈ l2))).length = (l1.toFinset ∩ l2.toFinset).card := by
  have hfin : (l1.filter (fun cap => decide (cap ∈ l2))).toFinset =
      l1.toFinset ∩ l2.toFinset := by
    ext x
    simp [List.mem_filter]
  have hnd : (l1.filter (fun cap => decide (cap ∈ l2))).Nodup := h1.filter _
  rw [← List.toFinset_card_of_nodup hnd, hfin]

theorem length_union_eq_card_union (l1 l2 : List Nat) (h1 : l1.Nodup) (h2 : l2.Nodup) :
    (l1 ++ l2.filter (fun cap => decide (cap ∉ l1))).length =
      (l1.toFinset ∪ l2.toFinset).card := by
  have hfin : (l2.filter (fun cap => decide (cap ∉ l1))).toFinset =
      l2.toFinset \ l1.toFinset := by
    ext x
    simp [List.mem_filter]
  have hnd : (l2.filter (fun cap => decide (cap ∉ l1))).Nodup := h2.filter _
  rw [List.length_append, ← List.toFinset_card_of_nodup hnd, hfin,
    ← List.toFinset_card_of_nodup h1, Nat.add_comm, Finset.card_sdiff_add_card,
    Finset.union_comm]

theorem mul_hundred_div_le (a n : Nat) (h : a ≤ n) : a * 100 / n ≤ 100 := by
  rcases Nat.eq_zero_or_pos n with hn | hn
  · subst hn
    simp
  · calc a * 100 / n ≤ n * 100 / n := Nat.div_le_div_right (Nat.mul_le_mul_right _ h)
      _ = 100 := Nat.mul_div_cancel_left _ hn

theorem compute_similarity_le (b1 b2 : LearningAgent) : compute_similarity b1 b2 ≤ 100 := by
  rw [compute_similarity_eq]
  apply mul_hundred_div_le
  rw [List.length_append]
  exact Nat.le_trans (List.length_filter_le _ _) (Nat.le_add_right _ _)

/-- Claim C8 (amended): for agents whose capability lists are duplicate-free,
`compute_similarity` is symmetric, and (for arbitrary capability lists) both
values lie in the range 0–100.  With duplicated capability entries the two
directions can differ. -/
theorem compute_similarity_symm_bounds (a1 a2 : LearningAgent)
    (h1 : a1.capabilities.Nodup) (h2 : a2.capabilities.Nodup) :
    compute_similarity a1 a2 = compute_similarity a2 a1 ∧
    compute_similarity a1 a2 ≤ 100 ∧ compute_similarity a2 a1 ≤ 100 := by
  refine ⟨?_, compute_similarity_le a1 a2, compute_similarity_le a2 a1⟩
  rw [compute_similarity_eq, compute_similarity_eq,
    length_filter_mem_eq_card_inter _ _ h1, length_filter_mem_eq_card_inter _ _ h2,
    length_union_eq_card_union _ _ h1 h2, length_union_eq_card_union _ _ h2 h1,
    Finset.inter_comm, Finset.union_comm]

/-- Claim C8 witness: the amended theorem applied to two agents with
duplicate-free capability lists {1, 2} and {2, 3}. -/
theorem compute_similarity_symm_bounds_witness :
    nodupA.capabilities.Nodup ∧ nodupB.capabilities.Nodup ∧
    (compute_similarity nodupA nodupB = compute_similarity nodupB nodupA ∧
      compute_similarity nodupA nodupB ≤ 100 ∧ compute_similarity nodupB nodupA ≤ 100) :=
  ⟨by decide, by decide, compute_similarity_symm_bounds nodupA nodupB (by decide) (by decide)⟩

/-- Claim C8 counterexample: with the duplicated capability list `[1, 1, 2]`
against `[1, 3]` the similarity is 50 in one direction and 33 in the other,
so `compute_similarity` is not symmetric on arbitrary capability lists. -/
theorem compute_similarity_asym_counterexample :
    compute_similarity simDupA simDupB = 50 ∧ compute_similarity simDupB simDupA = 33 ∧
    compute_similarity simDupA simDupB ≠ compute_similarity simDupB simDupA := by
  decide

end CALK

namespace HCMPL

/-- Claim C6: a `cache_get` of key `k` immediately after `cache_put` of
`(k, v)` (same access context, no intervening operation) returns `v`, for
every cache state, key, value and context. -/
theorem cache_read_your_writes (cache : HierarchicalCache)
    (key value agent_id task_complexity time_of_day : Nat) :
    cache_get (cache_put cache key value agent_id task_complexity time_of_day)
      key agent_id task_complexity time_of_day = some value := by
  simp [cache_get, cache_put]

/-- Claim C7: a `cache_get` of key `k` after `cache_invalidate k` (no
intervening put of `k`) returns a miss (`none`), for every cache state, key
and access context: invalidation removes the key from every level. -/
theorem cache_invalidate_then_miss (cache : HierarchicalCache)
    (key agent_id task_complexity time_of_day : Nat) :
    cache_get (cache_invalidate cache key) key agent_id task_complexity time_of_day = none := by
  simp [cache_get, cache_invalidate]

/-- Claim C10: the access context (agent id, task complexity, time bucket)
has no influence on cache behaviour: the hierarchical level is a function of
the key alone, `cache_get` returns the same result in any two contexts, and
`cache_put` writes the same value at the same level and key in any two
contexts (every entry's stored value agrees pointwise). -/
theorem cache_context_irrelevant (cache : HierarchicalCache)
    (key value a1 t1 d1 a2 t2 d2 : Nat) :
    cache_get cache key a1 t1 d1 = cache_get cache key a2 t2 d2 ∧
    get_cache_level key a1 t1 d1 = get_cache_level key a2 t2 d2 ∧
    ∀ l k2, ((cache_put cache key value a1 t1 d1) l k2).map (fun item => item.value) =
      ((cache_put cache key value a2 t2 d2) l k2).map (fun item => item.value) := by
  refine ⟨rfl, rfl, ?_⟩
  intro l k2
  simp only [cache_put, get_cache_level]
  by_cases hl : l = (if key % 3 = 0 then 2 else if key % 2 = 0 then 1 else 0)
  · by_cases hk : k2 = key
    · simp [hl, hk]
    · simp [hl, hk]
  · simp [hl]

end HCMPL
